import Mathlib

/-!
Shallow embedding of the script-execution engine in `src/app/script_runner.py`
(the free function `safe_script_runner`, and the class `ScriptRunner` with its
methods `execute_script` and `execute_file`).

The Python code interacts with the operating system in four places:
creating the temporary staging file (`tempfile.NamedTemporaryFile`), launching
the child process (`subprocess.run`), deleting the staging file (`os.unlink`),
and reading a caller-supplied file (`open`/`read`).  Each of those calls has a
small set of observable outcomes (a value, or a raised exception of a given
class); the embedding takes those outcomes as an explicit environment value
and computes, deterministically, the returned result dictionary together with
the ordered trace of filesystem/process effects the code performs.  A Python
exception that escapes the function is modelled as `Except.error` carrying
`str(e)`; a returned dictionary is `Except.ok`.
-/

set_option autoImplicit false

namespace ScriptRunnerModel

/-- The result dictionary built by `ScriptRunner.execute_script` and
`ScriptRunner.execute_file` (Python keys: `status`, `stdout`, `stderr`,
`return_code`, `error_message`).  `error_message` is `none` when the Python
code stores `None`. -/
structure RunResult where
  status : String
  stdout : String
  stderr : String
  return_code : Int
  error_message : Option String
deriving DecidableEq

/-- The result dictionary built by `safe_script_runner`: the same five keys
plus `execution_time` (seconds, rounded to 3 digits; modelled abstractly as a
number supplied by the environment, since it comes from `time.time()`). -/
structure TimedRunResult where
  status : String
  stdout : String
  stderr : String
  return_code : Int
  error_message : Option String
  execution_time : Nat
deriving DecidableEq

/-- Projection of `safe_script_runner`'s dictionary onto the five keys shared
with `ScriptRunner.execute_script`'s dictionary. -/
def TimedRunResult.shared (r : TimedRunResult) : RunResult :=
  { status := r.status, stdout := r.stdout, stderr := r.stderr,
    return_code := r.return_code, error_message := r.error_message }

/-- Outcome of `tempfile.NamedTemporaryFile(...)` + `write`: either the
staging file is created (the OS picked the unique path `path`) or the call
raises an exception whose `str` is `msg`. -/
inductive StageOutcome where
  | ok (path : String)
  | raises (msg : String)
deriving DecidableEq

/-- Outcome of `subprocess.run([sys.executable, path], capture_output=True,
text=True, timeout=...)`: the process completed with an exit code and captured
streams, or `subprocess.TimeoutExpired` was raised, or some other exception
(e.g. a launch failure) whose `str` is `msg` was raised. -/
inductive ProcOutcome where
  | completed (returncode : Int) (stdout : String) (stderr : String)
  | timeoutExpired
  | raises (msg : String)
deriving DecidableEq

/-- Outcome of `os.unlink(path)`: success, or an `OSError` (the only
exception class `os.unlink` raises for filesystem failures, and the one the
`finally` block catches and ignores). -/
inductive UnlinkOutcome where
  | ok
  | osError
deriving DecidableEq

/-- Outcome of `open(file_path).read()` in `execute_file`: the content was
read, or `FileNotFoundError` was raised, or some other exception whose `str`
is `msg` was raised. -/
inductive ReadOutcome where
  | ok (content : String)
  | fileNotFound
  | raises (msg : String)
deriving DecidableEq

/-- The environment of one inline run: what each OS interaction would return,
plus the elapsed wall-clock reading used for `execution_time`. -/
structure World where
  stage : StageOutcome
  proc : ProcOutcome
  unlink : UnlinkOutcome
  elapsed : Nat
deriving DecidableEq

/-- The environment of one `execute_file` call: the outcome of reading the
caller's file, plus the environment of the inner inline run (used only when
the read succeeds). -/
structure FileWorld where
  read : ReadOutcome
  inner : World
deriving DecidableEq

/-- Observable filesystem/process effects, in program order. -/
inductive Effect where
  | createTemp (path : String) (content : String)
  | launch (path : String)
  | unlinkFile (path : String)
  | openRead (path : String)
deriving DecidableEq

/-- The f-string `'Script execution timed out after {timeout} seconds'`. -/
def timeoutMsg (timeout : Nat) : String :=
  "Script execution timed out after " ++ toString timeout ++ " seconds"

/-- `safe_script_runner(script_content, timeout, script_name)` from
`src/app/script_runner.py` lines 16-104.  The temporary file is created
before the `try` block, so an exception raised while staging escapes the
function (`Except.error`); every outcome of `subprocess.run` is converted
into a returned dictionary, and the `finally` block attempts `os.unlink`
exactly once on each of those paths, ignoring `OSError`. -/
def safe_script_runner (script_content : String) (timeout : Nat)
    ( script_name : String) (w : World) :
    Except String TimedRunResult × List Effect :=
  match w.stage with
  | .raises msg => (.error msg, [])
  | .ok path =>
    match w.proc with
    | .completed rc out err =>
        (.ok { status := if rc = 0 then "success" else "error",
               stdout := out, stderr := err, return_code := rc,
               error_message := if rc ≠ 0 then some err else none,
               execution_time := w.elapsed },
         [.createTemp path script_content, .launch path, .unlinkFile path])
    | .timeoutExpired =>
        (.ok { status := "error", stdout := "",
               stderr := timeoutMsg timeout, return_code := -1,
               error_message := some (timeoutMsg timeout),
               execution_time := w.elapsed },
         [.createTemp path script_content, .launch path, .unlinkFile path])
    | .raises msg =>
        (.ok { status := "error", stdout := "", stderr := msg,
               return_code := -1,
               error_message := some ("Failed to execute script: " ++ msg),
               execution_time := w.elapsed },
         [.createTemp path script_content, .launch path, .unlinkFile path])

/-- The `ScriptRunner` class: its only state is the `timeout` set in
`__init__`. -/
structure ScriptRunner where
  timeout : Nat
deriving DecidableEq

/-- `ScriptRunner.execute_script(self, script_content, script_name)` from
`src/app/script_runner.py` lines 121-183: identical control flow to
`safe_script_runner` (temp file staged outside the `try`, `subprocess.run`
with `self.timeout`, `finally: os.unlink` ignoring `OSError`), without the
`execution_time` key. -/
def ScriptRunner.execute_script (self : ScriptRunner) (script_content : String)
    ( script_name : String) (w : World) :
    Except String RunResult × List Effect :=
  match w.stage with
  | .raises msg => (.error msg, [])
  | .ok path =>
    match w.proc with
    | .completed rc out err =>
        (.ok { status := if rc = 0 then "success" else "error",
               stdout := out, stderr := err, return_code := rc,
               error_message := if rc ≠ 0 then some err else none },
         [.createTemp path script_content, .launch path, .unlinkFile path])
    | .timeoutExpired =>
        (.ok { status := "error", stdout := "",
               stderr := timeoutMsg self.timeout, return_code := -1,
               error_message := some (timeoutMsg self.timeout) },
         [.createTemp path script_content, .launch path, .unlinkFile path])
    | .raises msg =>
        (.ok { status := "error", stdout := "", stderr := msg,
               return_code := -1,
               error_message := some ("Failed to execute script: " ++ msg) },
         [.createTemp path script_content, .launch path, .unlinkFile path])

/-- `os.path.basename`, as used by `execute_file` to build the (unused)
`script_name` argument. -/
def basename (p : String) : String :=
  (p.splitOn "/").getLastD p

/-- `ScriptRunner.execute_file(self, file_path)` from
`src/app/script_runner.py` lines 185-218: read the file's content inside a
`try` block and delegate to `execute_script`; `FileNotFoundError` yields the
`File not found` dictionary, and any other exception raised in the `try`
(including one escaping `execute_script`) yields the `Failed to read file`
dictionary. -/
def ScriptRunner.execute_file (self : ScriptRunner) (file_path : String)
    (w : FileWorld) : Except String RunResult × List Effect :=
  match w.read with
  | .fileNotFound =>
      (.ok { status := "error", stdout := "",
             stderr := "File not found: " ++ file_path, return_code := -1,
             error_message := some ("File not found: " ++ file_path) },
       [.openRead file_path])
  | .raises msg =>
      (.ok { status := "error", stdout := "", stderr := msg, return_code := -1,
             error_message := some ("Failed to read file: " ++ msg) },
       [.openRead file_path])
  | .ok content =>
      match self.execute_script content (basename file_path) w.inner with
      | (.ok res, effs) => (.ok res, .openRead file_path :: effs)
      | (.error msg, effs) =>
          (.ok { status := "error", stdout := "", stderr := msg,
                 return_code := -1,
                 error_message := some ("Failed to read file: " ++ msg) },
           .openRead file_path :: effs)

/-- Number of `os.unlink` attempts recorded in an effect trace. -/
def countUnlinks (l : List Effect) : Nat :=
  (l.filter fun e => match e with | .unlinkFile _ => true | _ => false).length

/-- Number of temporary staging files created in an effect trace. -/
def countCreates (l : List Effect) : Nat :=
  (l.filter fun e => match e with | .createTemp _ _ => true | _ => false).length

/-- Whether an effect trace launches any child process. -/
def launchesProcess (l : List Effect) : Bool :=
  l.any fun e => match e with | .launch _ => true | _ => false

/-- `pat` is an initial segment of `s` (character lists). -/
def leadsWith : List Char → List Char → Bool
  | [], _ => true
  | _ :: _, [] => false
  | a :: as, b :: bs => a == b && leadsWith as bs

/-- `pat` occurs as a contiguous segment of the character list. -/
def occursIn (pat : List Char) : List Char → Bool
  | [] => leadsWith pat []
  | b :: bs => leadsWith pat (b :: bs) || occursIn pat bs

/-- `pat` occurs as a substring of `s`. -/
def strOccurs (s pat : String) : Bool :=
  occursIn pat.data s.data

/-! Concrete environments used by the witnesses and counterexamples below.
The temp paths play the role of the unique names picked by
`tempfile.NamedTemporaryFile`. -/

/-- A run whose child process exits cleanly. -/
def wExitZero : World :=
  { stage := .ok "/tmp/tmpaaa.py", proc := .completed 0 "hello\n" "",
    unlink := .ok, elapsed := 7 }

/-- A run whose child process exits with code 2 and stderr content. -/
def wExitTwo : World :=
  { stage := .ok "/tmp/tmpbbb.py", proc := .completed 2 "" "boom",
    unlink := .ok, elapsed := 3 }

/-- A run that hits the timeout, and whose later `os.unlink` fails. -/
def wTimeout : World :=
  { stage := .ok "/tmp/tmpccc.py", proc := .timeoutExpired,
    unlink := .osError, elapsed := 1000 }

/-- A run in which `tempfile.NamedTemporaryFile` itself raises. -/
def wStageFail : World :=
  { stage := .raises "No usable temporary directory found",
    proc := .completed 0 "" "", unlink := .ok, elapsed := 0 }

/-- An `execute_file` call on an existing, readable file. -/
def fwExisting : FileWorld :=
  { read := .ok "print(1)",
    inner := { stage := .ok "/tmp/tmpstage.py", proc := .completed 0 "1\n" "",
               unlink := .ok, elapsed := 0 } }

/-- An `execute_file` call on a missing file. -/
def fwMissing : FileWorld :=
  { read := .fileNotFound,
    inner := { stage := .ok "/tmp/tmpunused.py", proc := .completed 0 "" "",
               unlink := .ok, elapsed := 0 } }

end ScriptRunnerModel

namespace ScriptRunnerModel

/-- Claim C1: for every inline-source run via `safe_script_runner` or
`ScriptRunner.execute_script` (i.e. whenever the temporary file was staged),
the staged file is unlinked exactly once before the call returns, on every
exit path, and the outcome of that deletion attempt never changes the
returned result dictionary. -/
theorem C1_staged_artifact_removed_once (c : String) (t : Nat) (n : String)
    (w : World) (p : String) (hs : w.stage = .ok p) (u : UnlinkOutcome) :
    countUnlinks (safe_script_runner c t n w).2 = 1 ∧
    countUnlinks ((ScriptRunner.mk t).execute_script c n w).2 = 1 ∧
    (safe_script_runner c t n { w with unlink := u }).1 =
      (safe_script_runner c t n w).1 ∧
    ((ScriptRunner.mk t).execute_script c n { w with unlink := u }).1 =
      ((ScriptRunner.mk t).execute_script c n w).1 := by
  cases w with
  | mk st pr un el =>
    cases hs
    cases pr <;>
      simp [safe_script_runner, ScriptRunner.execute_script, countUnlinks]

/-- Witness for C1, at a timed-out run whose deletion attempt fails. -/
theorem C1_staged_artifact_removed_once_witness :
    countUnlinks (safe_script_runner "print(1)" 1 "script.py" wTimeout).2 = 1 ∧
    countUnlinks ((ScriptRunner.mk 1).execute_script "print(1)" "script.py" wTimeout).2 = 1 ∧
    (safe_script_runner "print(1)" 1 "script.py" { wTimeout with unlink := .ok }).1 =
      (safe_script_runner "print(1)" 1 "script.py" wTimeout).1 ∧
    ((ScriptRunner.mk 1).execute_script "print(1)" "script.py" { wTimeout with unlink := .ok }).1 =
      ((ScriptRunner.mk 1).execute_script "print(1)" "script.py" wTimeout).1 :=
  C1_staged_artifact_removed_once "print(1)" 1 "script.py" wTimeout
    "/tmp/tmpccc.py" rfl .ok

/-- Claim C2 counterexample: `ScriptRunner.execute_file` on an existing file
does NOT run that file directly; it stages the file's content into a new
temporary artifact (one `createTemp`, one `unlinkFile`), and the child
process is launched on the staged copy, never on the caller's path. -/
theorem C2_counterexample_execute_file_stages_artifact :
    countCreates ((ScriptRunner.mk 30).execute_file "/w/hello.py" fwExisting).2 = 1 ∧
    countUnlinks ((ScriptRunner.mk 30).execute_file "/w/hello.py" fwExisting).2 = 1 ∧
    (((ScriptRunner.mk 30).execute_file "/w/hello.py" fwExisting).2.contains
      (Effect.launch "/w/hello.py")) = false ∧
    (((ScriptRunner.mk 30).execute_file "/w/hello.py" fwExisting).2.contains
      (Effect.launch "/tmp/tmpstage.py")) = true := by
  decide

/-- Claim C2 as amended: for every request whose source is an existing,
readable file, `execute_file` reads the content and delegates to
`execute_script`, so one staged artifact is created with that content, the
child process runs the staged copy, and the artifact is deleted once; the
caller's file is only opened for reading. -/
theorem C2_amended_execute_file_runs_staged_copy (self : ScriptRunner)
    (fp : String) (w : FileWorld) (content p : String)
    (hr : w.read = .ok content) (hs : w.inner.stage = .ok p) :
    (self.execute_file fp w).2 =
      [.openRead fp, .createTemp p content, .launch p, .unlinkFile p] := by
  cases w with
  | mk rd inn =>
    cases hr
    cases inn with
    | mk st pr un el =>
      cases hs
      cases pr <;>
        simp [ScriptRunner.execute_file, ScriptRunner.execute_script]

/-- Witness for the amended C2. -/
theorem C2_amended_execute_file_runs_staged_copy_witness :
    ((ScriptRunner.mk 30).execute_file "/w/hello.py" fwExisting).2 =
      [.openRead "/w/hello.py", .createTemp "/tmp/tmpstage.py" "print(1)",
       .launch "/tmp/tmpstage.py", .unlinkFile "/tmp/tmpstage.py"] :=
  C2_amended_execute_file_runs_staged_copy (ScriptRunner.mk 30) "/w/hello.py"
    fwExisting "print(1)" "/tmp/tmpstage.py" rfl rfl

/-- Claim C3 counterexample: a script completing with exit code 2 and stderr
`boom` yields `error_message = "boom"`, which neither contains the digit of
the exit code nor any synthesized `Script exited with code` text. -/
theorem C3_counterexample_error_message_lacks_code :
    (safe_script_runner "import sys" 30 "script.py" wExitTwo).1 =
      .ok { status := "error", stdout := "", stderr := "boom", return_code := 2,
            error_message := some "boom", execution_time := 3 } ∧
    strOccurs "boom" "2" = false ∧
    strOccurs "boom" "Script exited with code" = false := by
  refine ⟨rfl, by decide, by decide⟩

/-- Claim C3 as amended: for every script that runs to completion with a
non-zero exit code `rc`, the result has status `error`, `return_code = rc`,
`stdout` and `stderr` preserved untouched, and `error_message` equal to the
captured stderr (not a synthesized exit-code message). -/
theorem C3_amended_nonzero_exit_message_is_stderr (c : String) (t : Nat)
    (n : String) (w : World) (p : String) (rc : Int) (out err : String)
    (hs : w.stage = .ok p) (hp : w.proc = .completed rc out err)
    (hrc : rc ≠ 0) :
    (safe_script_runner c t n w).1 =
      .ok { status := "error", stdout := out, stderr := err, return_code := rc,
            error_message := some err, execution_time := w.elapsed } ∧
    ((ScriptRunner.mk t).execute_script c n w).1 =
      .ok { status := "error", stdout := out, stderr := err, return_code := rc,
            error_message := some err } := by
  cases w with
  | mk st pr un el =>
    cases hs; cases hp
    simp [safe_script_runner, ScriptRunner.execute_script, hrc]

/-- Witness for the amended C3. -/
theorem C3_amended_nonzero_exit_message_is_stderr_witness :
    (safe_script_runner "import sys" 30 "script.py" wExitTwo).1 =
      .ok { status := "error", stdout := "", stderr := "boom", return_code := 2,
            error_message := some "boom", execution_time := 3 } ∧
    ((ScriptRunner.mk 30).execute_script "import sys" "script.py" wExitTwo).1 =
      .ok { status := "error", stdout := "", stderr := "boom", return_code := 2,
            error_message := some "boom" } :=
  C3_amended_nonzero_exit_message_is_stderr "import sys" 30 "script.py"
    wExitTwo "/tmp/tmpbbb.py" 2 "" "boom" rfl rfl (by decide)

/-- Claim C4, evaluated at the failing input: when staging the temporary file
raises (the `tempfile.NamedTemporaryFile` block sits before the `try`), the
exception escapes both `safe_script_runner` and
`ScriptRunner.execute_script` instead of being converted into a returned
`Failure` dictionary, contradicting the claim and the docstring of
`safe_script_runner`. -/
theorem C4_code_bug_staging_exception_escapes :
    (safe_script_runner "print(1)" 30 "script.py" wStageFail).1 =
      .error "No usable temporary directory found" ∧
    ((ScriptRunner.mk 30).execute_script "print(1)" "script.py" wStageFail).1 =
      .error "No usable temporary directory found" ∧
    (safe_script_runner "print(1)" 30 "script.py" wStageFail).2 = [] :=
  ⟨rfl, rfl, rfl⟩

/-- Claim C5: for every run whose timeout of `t` seconds expires, the result
dictionary has `error_message` equal to the timeout sentence naming `t`,
empty `stdout`, `stderr` set to the same timeout message, and return code
-1, in both implementations. -/
theorem C5_timeout_result_shape (c : String) (t : Nat) (n : String)
    (w : World) (p : String) (hs : w.stage = .ok p)
    (hp : w.proc = .timeoutExpired) :
    (safe_script_runner c t n w).1 =
      .ok { status := "error", stdout := "",
            stderr := "Script execution timed out after " ++ toString t ++ " seconds",
            return_code := -1,
            error_message :=
              some ("Script execution timed out after " ++ toString t ++ " seconds"),
            execution_time := w.elapsed } ∧
    ((ScriptRunner.mk t).execute_script c n w).1 =
      .ok { status := "error", stdout := "",
            stderr := "Script execution timed out after " ++ toString t ++ " seconds",
            return_code := -1,
            error_message :=
              some ("Script execution timed out after " ++ toString t ++ " seconds") } := by
  cases w with
  | mk st pr un el =>
    cases hs; cases hp
    simp [safe_script_runner, ScriptRunner.execute_script, timeoutMsg]

/-- Witness for C5 at a 1-second timeout. -/
theorem C5_timeout_result_shape_witness :
    (safe_script_runner "print(1)" 1 "script.py" wTimeout).1 =
      .ok { status := "error", stdout := "",
            stderr := "Script execution timed out after " ++ toString 1 ++ " seconds",
            return_code := -1,
            error_message :=
              some ("Script execution timed out after " ++ toString 1 ++ " seconds"),
            execution_time := 1000 } ∧
    ((ScriptRunner.mk 1).execute_script "print(1)" "script.py" wTimeout).1 =
      .ok { status := "error", stdout := "",
            stderr := "Script execution timed out after " ++ toString 1 ++ " seconds",
            return_code := -1,
            error_message :=
              some ("Script execution timed out after " ++ toString 1 ++ " seconds") } :=
  C5_timeout_result_shape "print(1)" 1 "script.py" wTimeout "/tmp/tmpccc.py"
    rfl rfl

/-- Claim C6: exit code 0 is the sole success indicator.  For a completed
process the returned status is `success` exactly when the exit code is 0,
and on every path (completed, timeout, launch exception) a result whose
status is `success` carries return code 0 — in both implementations. -/
theorem C6_exit_zero_sole_success_indicator (c : String) (t : Nat)
    (n : String) (w : World) (p : String) (rc : Int) (out err : String)
    (r : RunResult) (rt : TimedRunResult)
    (hs : w.stage = .ok p)
    (hok : ((ScriptRunner.mk t).execute_script c n w).1 = .ok r)
    (hokt : (safe_script_runner c t n w).1 = .ok rt) :
    (w.proc = .completed rc out err →
      ((r.status = "success" ↔ rc = 0) ∧ (rt.status = "success" ↔ rc = 0))) ∧
    (r.status = "success" → r.return_code = 0) ∧
    (rt.status = "success" → rt.return_code = 0) := by
  cases w with
  | mk st pr un el =>
    cases hs
    cases pr with
    | completed rc' out' err' =>
      simp only [safe_script_runner, ScriptRunner.execute_script,
        Except.ok.injEq] at hok hokt
      subst hok hokt
      by_cases h0 : rc' = 0 <;> simp_all [ProcOutcome.completed.injEq]
    | timeoutExpired =>
      simp only [safe_script_runner, ScriptRunner.execute_script,
        Except.ok.injEq] at hok hokt
      subst hok hokt
      simp_all
    | raises m =>
      simp only [safe_script_runner, ScriptRunner.execute_script,
        Except.ok.injEq] at hok hokt
      subst hok hokt
      simp_all

/-- The dictionary `execute_script` returns in the environment
`wExitZero`. -/
def rExitZero : RunResult :=
  { status := "success", stdout := "hello\n", stderr := "", return_code := 0,
    error_message := none }

/-- The dictionary `safe_script_runner` returns in the environment
`wExitZero`. -/
def rtExitZero : TimedRunResult :=
  { status := "success", stdout := "hello\n", stderr := "", return_code := 0,
    error_message := none, execution_time := 7 }

/-- Witness for C6 at a clean exit. -/
theorem C6_exit_zero_sole_success_indicator_witness :
    (wExitZero.proc = .completed 0 "hello\n" "" →
      ((rExitZero.status = "success" ↔ (0 : Int) = 0) ∧
       (rtExitZero.status = "success" ↔ (0 : Int) = 0))) ∧
    (rExitZero.status = "success" → rExitZero.return_code = 0) ∧
    (rtExitZero.status = "success" → rtExitZero.return_code = 0) :=
  C6_exit_zero_sole_success_indicator "print(1)" 30 "script.py" wExitZero
    "/tmp/tmpaaa.py" 0 "hello\n" "" rExitZero rtExitZero rfl rfl rfl

/-- Claim C7: for every `execute_file` call on a path that does not exist,
the returned dictionary is the failure shape with a message reading
`File not found: ` followed by the path (so it contains `not found` and
names the path), return code -1, and no child process is launched. -/
theorem C7_missing_file_reported_no_launch (self : ScriptRunner)
    (fp : String) (w : FileWorld) (h : w.read = .fileNotFound) :
    (self.execute_file fp w).1 =
      .ok { status := "error", stdout := "",
            stderr := "File not found: " ++ fp, return_code := -1,
            error_message := some ("File not found: " ++ fp) } ∧
    (∃ x y, "File not found: " ++ fp = x ++ "not found" ++ y) ∧
    launchesProcess (self.execute_file fp w).2 = false := by
  cases w with
  | mk rd inn =>
    cases h
    exact ⟨rfl, ⟨"File ", ": " ++ fp, rfl⟩, rfl⟩

/-- Witness for C7 at a concrete missing path. -/
theorem C7_missing_file_reported_no_launch_witness :
    ((ScriptRunner.mk 30).execute_file "/does/not/exist.py" fwMissing).1 =
      .ok { status := "error", stdout := "",
            stderr := "File not found: " ++ "/does/not/exist.py", return_code := -1,
            error_message := some ("File not found: " ++ "/does/not/exist.py") } ∧
    (∃ x y, "File not found: " ++ "/does/not/exist.py" = x ++ "not found" ++ y) ∧
    launchesProcess ((ScriptRunner.mk 30).execute_file "/does/not/exist.py" fwMissing).2 = false :=
  C7_missing_file_reported_no_launch (ScriptRunner.mk 30) "/does/not/exist.py"
    fwMissing rfl

/-- Claim C8: for every script text, timeout and environment,
`safe_script_runner` and `ScriptRunner.execute_script` (constructed with the
same timeout) agree on the five shared result fields and perform the same
effects; the free function only adds the `execution_time` field. -/
theorem C8_free_function_and_method_agree (c : String) (t : Nat) (n : String)
    (w : World) :
    (safe_script_runner c t n w).1.map TimedRunResult.shared =
      ((ScriptRunner.mk t).execute_script c n w).1 ∧
    (safe_script_runner c t n w).2 =
      ((ScriptRunner.mk t).execute_script c n w).2 := by
  cases w with
  | mk st pr un el =>
    cases st <;> cases pr <;>
      simp [safe_script_runner, ScriptRunner.execute_script,
        TimedRunResult.shared, Except.map]

/-- Claim C10: the `script_name` argument is cosmetic.  Two runs of either
implementation that differ only in `script_name` return identical results
and perform identical effects (the source never reads the argument). -/
theorem C10_script_name_never_affects_behavior (c : String) (t : Nat)
    (n1 n2 : String) (w : World) :
    safe_script_runner c t n1 w = safe_script_runner c t n2 w ∧
    (ScriptRunner.mk t).execute_script c n1 w =
      (ScriptRunner.mk t).execute_script c n2 w :=
  ⟨rfl, rfl⟩

end ScriptRunnerModel
